import Mathlib

/-!
Verification of the MongoDB Deployment-to-StatefulSet migration script
(`migrate-mongodb.sh`) of the fullstack-chat-app repository.

The script is a sequential bash program run under `set -e`.  We embed it as an
executable function from

  * an `Env` recording the success/failure outcome of every external command
    whose outcome is not determined by the tracked cluster state, and
  * a `Cluster` recording the cluster-side state the script reads and mutates
    (existence of the legacy deployment, its replica count and record count,
    the PVC/PV, the StatefulSet, the `mongodb-0` pod, and the contents of the
    `/tmp/backup` directory in the legacy pod and in `mongodb-0`)

to a `Result` holding the process exit code, the final cluster state, the
ordered list of external commands issued (`trace`), and the ordered list of
messages printed (`output`).

Filesystem semantics mirrored from the manifests: the applied manifest
(`k8s/mongodb-deployment.yml`, StatefulSet `mongodb`) mounts only `/data/db`
from a `volumeClaimTemplates`-provisioned fresh volume, so the container
filesystem of `mongodb-0` (including `/tmp`) starts empty; the legacy pod's
container filesystem is destroyed when the deployment is scaled to zero.
-/

namespace MongoMigrate

/-- Cluster-side state read and mutated by the script. `legacyPodBackup` and
`newPodBackup` model the contents of `/tmp/backup` (number of records dumped
there) in the legacy pod and in pod `mongodb-0`; `none` means the directory is
absent. `mongodbServiceExists` records whether some Service in the namespace
has `mongodb` in its name: the services live in separate manifests
(`k8s/mongodb-headless-service.yml`, `k8s/mongodb-service.yml`, applied by
`deploy.sh`, not by this script), so the migration script neither creates nor
deletes them and this field is an unchanging precondition of the run. -/
structure Cluster where
  deploymentExists : Bool
  deploymentReplicas : Nat
  legacyRecords : Nat
  pvcExists : Bool
  pvExists : Bool
  statefulSetExists : Bool
  newPodExists : Bool
  newRecords : Nat
  newPodBackup : Option Nat
  legacyPodBackup : Option Nat
  mongodbServiceExists : Bool
deriving DecidableEq, Repr

/-- Outcomes of the external commands whose success is not determined by the
tracked cluster state (tool availability, network, `kubectl exec` results,
apply/wait results). -/
structure Env where
  kubectlAvailable : Bool
  clusterReachable : Bool
  mkdirOk : Bool
  dumpOk : Bool
  scaleOk : Bool
  waitDeleteOk : Bool
  applyOk : Bool
  readyOk : Bool
  restoreOk : Bool
  rmOk : Bool
  deleteDeploymentOk : Bool
  pingOk : Bool
deriving DecidableEq, Repr

/-- External commands issued by the script, in source order of appearance. -/
inductive Act where
  | checkKubectl
  | checkCluster
  | getDeployment
  | getStatefulSet
  | showStatefulSet
  | mkdirBackup
  | dump
  | scaleDownLegacy
  | waitPodsDeleted
  | deletePvc
  | deletePv
  | applyStatefulSet
  | waitReady
  | lsBackup
  | restore
  | rmBackup
  | deleteDeployment
  | getStatefulSetVerify
  | grepPods
  | grepSvc
  | grepPvc
  | ping
deriving DecidableEq, Repr

/-- Messages the script can print (one constructor per distinct print in the
source; the trailing success banner and connection hints are absorbed into
`successMigrationComplete`). -/
inductive Msg where
  | header
  | errKubectlMissing
  | errClusterUnreachable
  | infoChecking
  | warnFoundDeployment
  | successAlreadyExists
  | infoBackingUp
  | warnCouldNotBackup
  | infoScalingDown
  | infoCleanupStorage
  | noPvcToDelete
  | noPvToDelete
  | infoDeploying
  | infoWaitingReady
  | infoAttemptRestore
  | infoRestoring
  | warnCouldNotRestore
  | warnNoBackupFound
  | infoRemovingOld
  | infoVerifying
  | infoTestingConnection
  | successPing
  | warnPingFailed
  | successMigrationComplete
deriving DecidableEq, Repr

/-- Final observable outcome of one invocation of the script. -/
structure Result where
  exitCode : Nat
  state : Cluster
  trace : List Act
  output : List Msg
deriving DecidableEq, Repr

/-- In-flight state of one invocation: current cluster state plus the
commands issued and messages printed so far. -/
structure Run where
  cluster : Cluster
  trace : List Act
  output : List Msg
deriving DecidableEq, Repr

/-- Record that an external command was issued. -/
def Run.act (r : Run) (a : Act) : Run :=
  { r with trace := r.trace ++ [a] }

/-- Record that a message was printed. -/
def Run.say (r : Run) (m : Msg) : Run :=
  { r with output := r.output ++ [m] }

/-- Replace the cluster state. -/
def Run.upd (r : Run) (c : Cluster) : Run :=
  { r with cluster := c }

/-- Package the run into a final result with the given exit code. -/
def Run.result (r : Run) (code : Nat) : Result :=
  ⟨code, r.cluster, r.trace, r.output⟩

/-- Abort the run (`set -e` behaviour): the failing command's nonzero status
becomes the process exit code. -/
def Run.halt (r : Run) (code : Nat) : Except Result Run :=
  .error (r.result code)

/-- Lines 39-53: print the banner, check that kubectl is available and that
the cluster is reachable (each failure exits 1), announce the inspection. -/
def preflight (env : Env) (r : Run) : Except Result Run :=
  let r := r.say .header
  let r := r.act .checkKubectl
  if env.kubectlAvailable then
    let r := r.act .checkCluster
    if env.clusterReachable then
      .ok (r.say .infoChecking)
    else
      .error ((r.say .errClusterUnreachable).result 1)
  else
    .error ((r.say .errKubectlMissing).result 1)

/-- Lines 55-67: read whether the legacy deployment exists (the
`OLD_DEPLOYMENT_EXISTS` flag, returned as the Bool), then short-circuit with
exit code 0 if the StatefulSet already exists. -/
def inspectTopology (r : Run) : Except Result (Run × Bool) :=
  let old := r.cluster.deploymentExists
  let r := r.act .getDeployment
  let r := if old then r.say .warnFoundDeployment else r
  let r := r.act .getStatefulSet
  if r.cluster.statefulSetExists then
    .error (((r.say .successAlreadyExists).act .showStatefulSet).result 0)
  else
    .ok (r, old)

/-- Lines 69-85: when the legacy deployment exists, create the backup
directory (`|| true`), run mongodump into `/tmp/backup` of the legacy pod
(failure downgraded to a warning), scale the deployment to zero (fatal if the
scale command fails; pod termination destroys the legacy pod's container
filesystem, `/tmp/backup` included), and wait for pod deletion (`|| true`). -/
def backupPhase (env : Env) (old : Bool) (r : Run) : Except Result Run :=
  if old then
    let r := r.say .infoBackingUp
    let r := r.act .mkdirBackup
    let r := if env.mkdirOk && r.cluster.legacyPodBackup.isNone then
               r.upd { r.cluster with legacyPodBackup := some 0 }
             else r
    let r := r.act .dump
    let r := if env.dumpOk then
               r.upd { r.cluster with legacyPodBackup := some r.cluster.legacyRecords }
             else r.say .warnCouldNotBackup
    let r := r.say .infoScalingDown
    let r := r.act .scaleDownLegacy
    if env.scaleOk then
      let r := r.upd { r.cluster with deploymentReplicas := 0, legacyPodBackup := none }
      .ok (r.act .waitPodsDeleted)
    else
      r.halt 1
  else
    .ok r

/-- Lines 87-90: unconditionally attempt to delete the legacy PVC and PV;
a failed delete (object absent) is downgraded to an informational echo. -/
def storageCleanup (r : Run) : Run :=
  let r := r.say .infoCleanupStorage
  let r := r.act .deletePvc
  let r := if r.cluster.pvcExists then
             r.upd { r.cluster with pvcExists := false }
           else r.say .noPvcToDelete
  let r := r.act .deletePv
  if r.cluster.pvExists then
    r.upd { r.cluster with pvExists := false }
  else r.say .noPvToDelete

/-- Lines 92-98: apply the StatefulSet manifest (fatal on failure) and wait
for pod `mongodb-0` to become ready (fatal on timeout).  A successful apply
creates the StatefulSet and pod `mongodb-0` with freshly provisioned
per-replica storage and a fresh container filesystem: the new pod holds no
records and no `/tmp/backup` directory. -/
def provisionPhase (env : Env) (r : Run) : Except Result Run :=
  let r := r.say .infoDeploying
  let r := r.act .applyStatefulSet
  if env.applyOk then
    let r := r.upd { r.cluster with
                     statefulSetExists := true, newPodExists := true,
                     newRecords := 0, newPodBackup := none }
    let r := r.say .infoWaitingReady
    let r := r.act .waitReady
    if env.readyOk then .ok r else r.halt 1
  else
    r.halt 1

/-- Lines 100-112: when the legacy deployment existed, probe `/tmp/backup`
inside pod `mongodb-0`; if present, run mongorestore (failure downgraded to a
warning) and remove the backup (`|| true`); if absent, warn that no backup
was found.  Every branch returns `Except.ok`: this phase never aborts the
run. -/
def restorePhase (env : Env) (old : Bool) (r : Run) : Except Result Run :=
  if old then
    let r := r.say .infoAttemptRestore
    let r := r.act .lsBackup
    match r.cluster.newPodBackup with
    | some b =>
      let r := r.say .infoRestoring
      let r := r.act .restore
      let r := if env.restoreOk then
                 r.upd { r.cluster with newRecords := b }
               else r.say .warnCouldNotRestore
      let r := r.act .rmBackup
      let r := if env.rmOk then r.upd { r.cluster with newPodBackup := none } else r
      .ok r
    | none => .ok (r.say .warnNoBackupFound)
  else
    .ok r

/-- Lines 114-118: when the legacy deployment existed, delete it.  The
delete command runs under `set -e` with no fallback, so its failure aborts
the run with a nonzero exit code. -/
def cleanupPhase (env : Env) (old : Bool) (r : Run) : Except Result Run :=
  if old then
    let r := r.say .infoRemovingOld
    let r := r.act .deleteDeployment
    if env.deleteDeploymentOk then
      .ok (r.upd { r.cluster with deploymentExists := false })
    else
      r.halt 1
  else
    .ok r

/-- Lines 120-131: display the StatefulSet and grep pods, services and PVCs
for `mongodb` (each command runs under `set -e`: it fails, aborting the run,
exactly when the queried object is absent).  The pod grep matches `mongodb-0`
and the PVC grep matches the `volumeClaimTemplates` claim, both created by the
apply; the service grep, however, matches only services created elsewhere
(`deploy.sh` applies them from separate manifests; this script never creates
a service), so it succeeds exactly when `mongodbServiceExists` held at entry.
Finally a single ping is issued whose failure is downgraded to a warning. -/
def verifyPhase (env : Env) (r : Run) : Except Result Run :=
  let r := r.say .infoVerifying
  let r := r.act .getStatefulSetVerify
  if r.cluster.statefulSetExists then
    let r := r.act .grepPods
    if r.cluster.newPodExists then
      let r := r.act .grepSvc
      if r.cluster.mongodbServiceExists then
        let r := r.act .grepPvc
        if r.cluster.newPodExists then
          let r := r.say .infoTestingConnection
          let r := r.act .ping
          if env.pingOk then .ok (r.say .successPing)
          else .ok (r.say .warnPingFailed)
        else r.halt 1
      else r.halt 1
    else r.halt 1
  else r.halt 1

/-- The whole script: sequential composition of the phases under `set -e`
semantics, ending with the success banner and exit code 0. -/
def migrate (env : Env) (s : Cluster) : Result :=
  match preflight env ⟨s, [], []⟩ with
  | .error res => res
  | .ok r1 =>
    match inspectTopology r1 with
    | .error res => res
    | .ok (r2, old) =>
      match backupPhase env old r2 with
      | .error res => res
      | .ok r3 =>
        let r4 := storageCleanup r3
        match provisionPhase env r4 with
        | .error res => res
        | .ok r5 =>
          match restorePhase env old r5 with
          | .error res => res
          | .ok r6 =>
            match cleanupPhase env old r6 with
            | .error res => res
            | .ok r7 =>
              match verifyPhase env r7 with
              | .error res => res
              | .ok r8 => (r8.say .successMigrationComplete).result 0

/-- Commands that mutate cluster or instance state (scale, delete, apply, or
an exec that changes state); checks, reads, waits, `ls` and `ping` do not. -/
def mutating : Act → Bool
  | .mkdirBackup => true
  | .dump => true
  | .scaleDownLegacy => true
  | .deletePvc => true
  | .deletePv => true
  | .applyStatefulSet => true
  | .restore => true
  | .rmBackup => true
  | .deleteDeployment => true
  | _ => false

/-- Environment in which every external command succeeds. -/
def envAllOk : Env :=
  ⟨true, true, true, true, true, true, true, true, true, true, true, true⟩

/-- Legacy topology holding `n` records: deployment present with one replica,
PVC and PV bound, no StatefulSet, no pod `mongodb-0`, no backup directories;
the mongodb services exist, as after a `deploy.sh` install. -/
def legacyCluster (n : Nat) : Cluster :=
  ⟨true, 1, n, true, true, false, false, 0, none, none, true⟩

/-- Absent topology: no deployment, no StatefulSet, no storage objects, no
services — a genuinely empty namespace. -/
def absentCluster : Cluster :=
  ⟨false, 0, 0, false, false, false, false, 0, none, none, false⟩

/-- Absent topology in which the mongodb services already exist (for example
applied beforehand from their own manifests). -/
def absentWithServiceCluster : Cluster :=
  ⟨false, 0, 0, false, false, false, false, 0, none, none, true⟩

/-- Cluster with no workloads at all but a leftover bound PVC and PV. -/
def orphanCluster : Cluster :=
  ⟨false, 0, 0, true, true, false, false, 0, none, none, false⟩

/-- Environment where mongodump reports an error and every other command
succeeds. -/
def envDumpFail : Env :=
  { envAllOk with dumpOk := false }

/-- Environment where the final ping fails and every other command
succeeds. -/
def envPingFail : Env :=
  { envAllOk with pingOk := false }

/-- Environment where the readiness wait for pod `mongodb-0` times out and
every other command succeeds. -/
def envReadyFail : Env :=
  { envAllOk with readyOk := false }

/-- Environment where deleting the legacy deployment fails and every other
command succeeds. -/
def envDeleteDepFail : Env :=
  { envAllOk with deleteDeploymentOk := false }

/-- Environment where mongorestore fails and every other command succeeds. -/
def envRestoreFail : Env :=
  { envAllOk with restoreOk := false }

/-- Run state at the restore phase in which pod `mongodb-0` holds a backup
of 3 records in `/tmp/backup`. -/
def runWithBackup : Run :=
  ⟨⟨true, 0, 3, false, false, true, true, 0, some 3, none, true⟩, [], []⟩

/-- Characterization of a run with kubectl unavailable. -/
theorem run_noKubectl (env : Env) (s : Cluster)
    (hka : env.kubectlAvailable = false) :
    migrate env s = ⟨1, s, [.checkKubectl], [.header, .errKubectlMissing]⟩ := by
  simp [migrate, preflight, Run.act, Run.say, Run.result, hka]

/-- Characterization of a run with the cluster unreachable. -/
theorem run_noCluster (env : Env) (s : Cluster)
    (hka : env.kubectlAvailable = true) (hcr : env.clusterReachable = false) :
    migrate env s =
      ⟨1, s, [.checkKubectl, .checkCluster], [.header, .errClusterUnreachable]⟩ := by
  simp [migrate, preflight, Run.act, Run.say, Run.result, hka, hcr]

/-- Characterization of a run against a cluster where the StatefulSet already
exists: a read-only short circuit exiting 0. -/
theorem run_alreadyMigrated (env : Env) (s : Cluster)
    (hka : env.kubectlAvailable = true) (hcr : env.clusterReachable = true)
    (hss : s.statefulSetExists = true) :
    migrate env s =
      ⟨0, s,
       [.checkKubectl, .checkCluster, .getDeployment, .getStatefulSet, .showStatefulSet],
       [.header, .infoChecking]
         ++ (if s.deploymentExists then [.warnFoundDeployment] else [])
         ++ [.successAlreadyExists]⟩ := by
  cases hde : s.deploymentExists <;>
    simp [migrate, preflight, inspectTopology, Run.act, Run.say, Run.result,
      hka, hcr, hss, hde]

/-- Characterization of the fully successful legacy-topology run. -/
theorem run_legacySuccess (env : Env) (s : Cluster)
    (hka : env.kubectlAvailable = true) (hcr : env.clusterReachable = true)
    (hde : s.deploymentExists = true) (hss : s.statefulSetExists = false)
    (hsc : env.scaleOk = true) (hap : env.applyOk = true)
    (hrd : env.readyOk = true) (hdd : env.deleteDeploymentOk = true)
    (hsv : s.mongodbServiceExists = true) :
    migrate env s =
      ⟨0,
       ⟨false, 0, s.legacyRecords, false, false, true, true, 0, none, none,
        s.mongodbServiceExists⟩,
       [.checkKubectl, .checkCluster, .getDeployment, .getStatefulSet,
        .mkdirBackup, .dump, .scaleDownLegacy, .waitPodsDeleted,
        .deletePvc, .deletePv, .applyStatefulSet, .waitReady,
        .lsBackup, .deleteDeployment,
        .getStatefulSetVerify, .grepPods, .grepSvc, .grepPvc, .ping],
       [.header, .infoChecking, .warnFoundDeployment, .infoBackingUp]
         ++ (if env.dumpOk then [] else [.warnCouldNotBackup])
         ++ [.infoScalingDown, .infoCleanupStorage]
         ++ (if s.pvcExists then [] else [.noPvcToDelete])
         ++ (if s.pvExists then [] else [.noPvToDelete])
         ++ [.infoDeploying, .infoWaitingReady, .infoAttemptRestore, .warnNoBackupFound,
             .infoRemovingOld, .infoVerifying, .infoTestingConnection]
         ++ (if env.pingOk then [.successPing] else [.warnPingFailed])
         ++ [.successMigrationComplete]⟩ := by
  cases hmk : env.mkdirOk <;> cases hdu : env.dumpOk <;>
    cases hlpb : s.legacyPodBackup <;>
    cases hpvc : s.pvcExists <;> cases hpv : s.pvExists <;>
    cases hpg : env.pingOk <;>
    simp [migrate, preflight, inspectTopology, backupPhase, storageCleanup,
      provisionPhase, restorePhase, cleanupPhase, verifyPhase,
      Run.act, Run.say, Run.upd, Run.result, Run.halt,
      hka, hcr, hde, hss, hsc, hap, hrd, hdd, hsv, hmk, hdu, hlpb, hpvc, hpv, hpg]

/-- Characterization of the fully successful absent-topology run: no legacy
deployment, so no backup and no restore attempt at all. -/
theorem run_absentSuccess (env : Env) (s : Cluster)
    (hka : env.kubectlAvailable = true) (hcr : env.clusterReachable = true)
    (hde : s.deploymentExists = false) (hss : s.statefulSetExists = false)
    (hap : env.applyOk = true) (hrd : env.readyOk = true)
    (hsv : s.mongodbServiceExists = true) :
    migrate env s =
      ⟨0,
       { s with pvcExists := false, pvExists := false, statefulSetExists := true,
                newPodExists := true, newRecords := 0, newPodBackup := none },
       [.checkKubectl, .checkCluster, .getDeployment, .getStatefulSet,
        .deletePvc, .deletePv, .applyStatefulSet, .waitReady,
        .getStatefulSetVerify, .grepPods, .grepSvc, .grepPvc, .ping],
       [.header, .infoChecking, .infoCleanupStorage]
         ++ (if s.pvcExists then [] else [.noPvcToDelete])
         ++ (if s.pvExists then [] else [.noPvToDelete])
         ++ [.infoDeploying, .infoWaitingReady, .infoVerifying, .infoTestingConnection]
         ++ (if env.pingOk then [.successPing] else [.warnPingFailed])
         ++ [.successMigrationComplete]⟩ := by
  cases hpvc : s.pvcExists <;> cases hpv : s.pvExists <;> cases hpg : env.pingOk <;>
    simp [migrate, preflight, inspectTopology, backupPhase, storageCleanup,
      provisionPhase, restorePhase, cleanupPhase, verifyPhase,
      Run.act, Run.say, Run.upd, Run.result, Run.halt,
      hka, hcr, hde, hss, hap, hrd, hsv, hpvc, hpv, hpg]

/-- Characterization of a legacy-topology run in which the scale-down of the
legacy deployment fails: `set -e` aborts before any storage deletion. -/
theorem run_scaleFail (env : Env) (s : Cluster)
    (hka : env.kubectlAvailable = true) (hcr : env.clusterReachable = true)
    (hde : s.deploymentExists = true) (hss : s.statefulSetExists = false)
    (hsc : env.scaleOk = false) :
    (migrate env s).exitCode = 1 ∧
    (migrate env s).trace =
      [.checkKubectl, .checkCluster, .getDeployment, .getStatefulSet,
       .mkdirBackup, .dump, .scaleDownLegacy] ∧
    (migrate env s).state.deploymentExists = true ∧
    (migrate env s).state.deploymentReplicas = s.deploymentReplicas ∧
    (migrate env s).state.pvcExists = s.pvcExists ∧
    (migrate env s).state.pvExists = s.pvExists ∧
    (migrate env s).state.statefulSetExists = false := by
  cases hmk : env.mkdirOk <;> cases hdu : env.dumpOk <;>
    cases hlpb : s.legacyPodBackup <;>
    simp [migrate, preflight, inspectTopology, backupPhase,
      Run.act, Run.say, Run.upd, Run.result, Run.halt,
      hka, hcr, hde, hss, hsc, hmk, hdu, hlpb]

/-- Characterization of a legacy-topology run in which applying the
StatefulSet manifest fails. -/
theorem run_applyFailLegacy (env : Env) (s : Cluster)
    (hka : env.kubectlAvailable = true) (hcr : env.clusterReachable = true)
    (hde : s.deploymentExists = true) (hss : s.statefulSetExists = false)
    (hsc : env.scaleOk = true) (hap : env.applyOk = false) :
    migrate env s =
      ⟨1,
       ⟨true, 0, s.legacyRecords, false, false, false,
        s.newPodExists, s.newRecords, s.newPodBackup, none,
        s.mongodbServiceExists⟩,
       [.checkKubectl, .checkCluster, .getDeployment, .getStatefulSet,
        .mkdirBackup, .dump, .scaleDownLegacy, .waitPodsDeleted,
        .deletePvc, .deletePv, .applyStatefulSet],
       [.header, .infoChecking, .warnFoundDeployment, .infoBackingUp]
         ++ (if env.dumpOk then [] else [.warnCouldNotBackup])
         ++ [.infoScalingDown, .infoCleanupStorage]
         ++ (if s.pvcExists then [] else [.noPvcToDelete])
         ++ (if s.pvExists then [] else [.noPvToDelete])
         ++ [.infoDeploying]⟩ := by
  cases hmk : env.mkdirOk <;> cases hdu : env.dumpOk <;>
    cases hlpb : s.legacyPodBackup <;>
    cases hpvc : s.pvcExists <;> cases hpv : s.pvExists <;>
    simp [migrate, preflight, inspectTopology, backupPhase, storageCleanup,
      provisionPhase, Run.act, Run.say, Run.upd, Run.result, Run.halt,
      hka, hcr, hde, hss, hsc, hap, hmk, hdu, hlpb, hpvc, hpv]

/-- Characterization of an absent-topology run in which applying the
StatefulSet manifest fails. -/
theorem run_applyFailAbsent (env : Env) (s : Cluster)
    (hka : env.kubectlAvailable = true) (hcr : env.clusterReachable = true)
    (hde : s.deploymentExists = false) (hss : s.statefulSetExists = false)
    (hap : env.applyOk = false) :
    migrate env s =
      ⟨1,
       { s with pvcExists := false, pvExists := false },
       [.checkKubectl, .checkCluster, .getDeployment, .getStatefulSet,
        .deletePvc, .deletePv, .applyStatefulSet],
       [.header, .infoChecking, .infoCleanupStorage]
         ++ (if s.pvcExists then [] else [.noPvcToDelete])
         ++ (if s.pvExists then [] else [.noPvToDelete])
         ++ [.infoDeploying]⟩ := by
  cases hpvc : s.pvcExists <;> cases hpv : s.pvExists <;>
    simp [migrate, preflight, inspectTopology, backupPhase, storageCleanup,
      provisionPhase, Run.act, Run.say, Run.upd, Run.result, Run.halt,
      hka, hcr, hde, hss, hap, hpvc, hpv]
  all_goals (cases s; simp_all)

/-- Characterization of a legacy-topology run in which the readiness wait for
pod `mongodb-0` fails: `set -e` aborts with no further message, leaving the
legacy deployment scaled to zero but not deleted. -/
theorem run_readyFailLegacy (env : Env) (s : Cluster)
    (hka : env.kubectlAvailable = true) (hcr : env.clusterReachable = true)
    (hde : s.deploymentExists = true) (hss : s.statefulSetExists = false)
    (hsc : env.scaleOk = true) (hap : env.applyOk = true)
    (hrd : env.readyOk = false) :
    migrate env s =
      ⟨1,
       ⟨true, 0, s.legacyRecords, false, false, true, true, 0, none, none,
        s.mongodbServiceExists⟩,
       [.checkKubectl, .checkCluster, .getDeployment, .getStatefulSet,
        .mkdirBackup, .dump, .scaleDownLegacy, .waitPodsDeleted,
        .deletePvc, .deletePv, .applyStatefulSet, .waitReady],
       [.header, .infoChecking, .warnFoundDeployment, .infoBackingUp]
         ++ (if env.dumpOk then [] else [.warnCouldNotBackup])
         ++ [.infoScalingDown, .infoCleanupStorage]
         ++ (if s.pvcExists then [] else [.noPvcToDelete])
         ++ (if s.pvExists then [] else [.noPvToDelete])
         ++ [.infoDeploying, .infoWaitingReady]⟩ := by
  cases hmk : env.mkdirOk <;> cases hdu : env.dumpOk <;>
    cases hlpb : s.legacyPodBackup <;>
    cases hpvc : s.pvcExists <;> cases hpv : s.pvExists <;>
    simp [migrate, preflight, inspectTopology, backupPhase, storageCleanup,
      provisionPhase, Run.act, Run.say, Run.upd, Run.result, Run.halt,
      hka, hcr, hde, hss, hsc, hap, hrd, hmk, hdu, hlpb, hpvc, hpv]

/-- Characterization of an absent-topology run in which the readiness wait
fails. -/
theorem run_readyFailAbsent (env : Env) (s : Cluster)
    (hka : env.kubectlAvailable = true) (hcr : env.clusterReachable = true)
    (hde : s.deploymentExists = false) (hss : s.statefulSetExists = false)
    (hap : env.applyOk = true) (hrd : env.readyOk = false) :
    migrate env s =
      ⟨1,
       { s with pvcExists := false, pvExists := false, statefulSetExists := true,
                newPodExists := true, newRecords := 0, newPodBackup := none },
       [.checkKubectl, .checkCluster, .getDeployment, .getStatefulSet,
        .deletePvc, .deletePv, .applyStatefulSet, .waitReady],
       [.header, .infoChecking, .infoCleanupStorage]
         ++ (if s.pvcExists then [] else [.noPvcToDelete])
         ++ (if s.pvExists then [] else [.noPvToDelete])
         ++ [.infoDeploying, .infoWaitingReady]⟩ := by
  cases hpvc : s.pvcExists <;> cases hpv : s.pvExists <;>
    simp [migrate, preflight, inspectTopology, backupPhase, storageCleanup,
      provisionPhase, Run.act, Run.say, Run.upd, Run.result, Run.halt,
      hka, hcr, hde, hss, hap, hrd, hpvc, hpv]

/-- Characterization of a legacy-topology run in which deleting the legacy
deployment fails: `set -e` aborts with a nonzero exit code even though
provisioning succeeded. -/
theorem run_deleteFail (env : Env) (s : Cluster)
    (hka : env.kubectlAvailable = true) (hcr : env.clusterReachable = true)
    (hde : s.deploymentExists = true) (hss : s.statefulSetExists = false)
    (hsc : env.scaleOk = true) (hap : env.applyOk = true)
    (hrd : env.readyOk = true) (hdd : env.deleteDeploymentOk = false) :
    migrate env s =
      ⟨1,
       ⟨true, 0, s.legacyRecords, false, false, true, true, 0, none, none,
        s.mongodbServiceExists⟩,
       [.checkKubectl, .checkCluster, .getDeployment, .getStatefulSet,
        .mkdirBackup, .dump, .scaleDownLegacy, .waitPodsDeleted,
        .deletePvc, .deletePv, .applyStatefulSet, .waitReady,
        .lsBackup, .deleteDeployment],
       [.header, .infoChecking, .warnFoundDeployment, .infoBackingUp]
         ++ (if env.dumpOk then [] else [.warnCouldNotBackup])
         ++ [.infoScalingDown, .infoCleanupStorage]
         ++ (if s.pvcExists then [] else [.noPvcToDelete])
         ++ (if s.pvExists then [] else [.noPvToDelete])
         ++ [.infoDeploying, .infoWaitingReady, .infoAttemptRestore,
             .warnNoBackupFound, .infoRemovingOld]⟩ := by
  cases hmk : env.mkdirOk <;> cases hdu : env.dumpOk <;>
    cases hlpb : s.legacyPodBackup <;>
    cases hpvc : s.pvcExists <;> cases hpv : s.pvExists <;>
    simp [migrate, preflight, inspectTopology, backupPhase, storageCleanup,
      provisionPhase, restorePhase, cleanupPhase,
      Run.act, Run.say, Run.upd, Run.result, Run.halt,
      hka, hcr, hde, hss, hsc, hap, hrd, hdd, hmk, hdu, hlpb, hpvc, hpv]

/-- Characterization of a legacy-topology run that reaches the verification
block with no mongodb-named service present: the bare
`kubectl get svc | grep mongodb` pipeline fails under `set -e` and the run
aborts with exit code 1 after the legacy deployment was already deleted. -/
theorem run_svcFailLegacy (env : Env) (s : Cluster)
    (hka : env.kubectlAvailable = true) (hcr : env.clusterReachable = true)
    (hde : s.deploymentExists = true) (hss : s.statefulSetExists = false)
    (hsc : env.scaleOk = true) (hap : env.applyOk = true)
    (hrd : env.readyOk = true) (hdd : env.deleteDeploymentOk = true)
    (hsv : s.mongodbServiceExists = false) :
    migrate env s =
      ⟨1,
       ⟨false, 0, s.legacyRecords, false, false, true, true, 0, none, none,
        s.mongodbServiceExists⟩,
       [.checkKubectl, .checkCluster, .getDeployment, .getStatefulSet,
        .mkdirBackup, .dump, .scaleDownLegacy, .waitPodsDeleted,
        .deletePvc, .deletePv, .applyStatefulSet, .waitReady,
        .lsBackup, .deleteDeployment, .getStatefulSetVerify, .grepPods, .grepSvc],
       [.header, .infoChecking, .warnFoundDeployment, .infoBackingUp]
         ++ (if env.dumpOk then [] else [.warnCouldNotBackup])
         ++ [.infoScalingDown, .infoCleanupStorage]
         ++ (if s.pvcExists then [] else [.noPvcToDelete])
         ++ (if s.pvExists then [] else [.noPvToDelete])
         ++ [.infoDeploying, .infoWaitingReady, .infoAttemptRestore,
             .warnNoBackupFound, .infoRemovingOld, .infoVerifying]⟩ := by
  cases hmk : env.mkdirOk <;> cases hdu : env.dumpOk <;>
    cases hlpb : s.legacyPodBackup <;>
    cases hpvc : s.pvcExists <;> cases hpv : s.pvExists <;>
    simp [migrate, preflight, inspectTopology, backupPhase, storageCleanup,
      provisionPhase, restorePhase, cleanupPhase, verifyPhase,
      Run.act, Run.say, Run.upd, Run.result, Run.halt,
      hka, hcr, hde, hss, hsc, hap, hrd, hdd, hsv, hmk, hdu, hlpb, hpvc, hpv]

/-- Characterization of an absent-topology run that reaches the verification
block with no mongodb-named service present: the service grep fails under
`set -e` and the run aborts with exit code 1 despite successful
provisioning. -/
theorem run_svcFailAbsent (env : Env) (s : Cluster)
    (hka : env.kubectlAvailable = true) (hcr : env.clusterReachable = true)
    (hde : s.deploymentExists = false) (hss : s.statefulSetExists = false)
    (hap : env.applyOk = true) (hrd : env.readyOk = true)
    (hsv : s.mongodbServiceExists = false) :
    migrate env s =
      ⟨1,
       { s with pvcExists := false, pvExists := false, statefulSetExists := true,
                newPodExists := true, newRecords := 0, newPodBackup := none },
       [.checkKubectl, .checkCluster, .getDeployment, .getStatefulSet,
        .deletePvc, .deletePv, .applyStatefulSet, .waitReady,
        .getStatefulSetVerify, .grepPods, .grepSvc],
       [.header, .infoChecking, .infoCleanupStorage]
         ++ (if s.pvcExists then [] else [.noPvcToDelete])
         ++ (if s.pvExists then [] else [.noPvToDelete])
         ++ [.infoDeploying, .infoWaitingReady, .infoVerifying]⟩ := by
  cases hpvc : s.pvcExists <;> cases hpv : s.pvExists <;>
    simp [migrate, preflight, inspectTopology, backupPhase, storageCleanup,
      provisionPhase, restorePhase, cleanupPhase, verifyPhase,
      Run.act, Run.say, Run.upd, Run.result, Run.halt,
      hka, hcr, hde, hss, hap, hrd, hsv, hpvc, hpv]

/-- Helper: any run that exits 0 ends with the StatefulSet in place (either it
already existed and the run was a read-only short circuit, or it was created
by the apply step and never removed afterwards). -/
theorem migrate_exit0_statefulSet (env : Env) (s : Cluster)
    (h : (migrate env s).exitCode = 0) :
    (migrate env s).state.statefulSetExists = true := by
  cases hka : env.kubectlAvailable
  · rw [run_noKubectl env s hka] at h; simp at h
  · cases hcr : env.clusterReachable
    · rw [run_noCluster env s hka hcr] at h; simp at h
    · cases hss : s.statefulSetExists
      · cases hde : s.deploymentExists
        · cases hap : env.applyOk
          · rw [run_applyFailAbsent env s hka hcr hde hss hap] at h; simp at h
          · cases hrd : env.readyOk
            · rw [run_readyFailAbsent env s hka hcr hde hss hap hrd] at h; simp at h
            · cases hsv : s.mongodbServiceExists
              · rw [run_svcFailAbsent env s hka hcr hde hss hap hrd hsv] at h
                simp at h
              · rw [run_absentSuccess env s hka hcr hde hss hap hrd hsv]
        · cases hsc : env.scaleOk
          · obtain ⟨h1, _⟩ := run_scaleFail env s hka hcr hde hss hsc
            rw [h1] at h; simp at h
          · cases hap : env.applyOk
            · rw [run_applyFailLegacy env s hka hcr hde hss hsc hap] at h; simp at h
            · cases hrd : env.readyOk
              · rw [run_readyFailLegacy env s hka hcr hde hss hsc hap hrd] at h
                simp at h
              · cases hdd : env.deleteDeploymentOk
                · rw [run_deleteFail env s hka hcr hde hss hsc hap hrd hdd] at h
                  simp at h
                · cases hsv : s.mongodbServiceExists
                  · rw [run_svcFailLegacy env s hka hcr hde hss hsc hap hrd hdd hsv] at h
                    simp at h
                  · rw [run_legacySuccess env s hka hcr hde hss hsc hap hrd hdd hsv]
      · rw [run_alreadyMigrated env s hka hcr hss]; exact hss

/-- C1: with a Legacy topology holding 3 records and every external command
(including dump and restore) succeeding, the run exits 0 and produces a
Managed instance — but with 0 records: the dump was written to `/tmp/backup`
of the legacy pod, which is destroyed at scale-down and never copied into
`mongodb-0`, so the restore is skipped ("No backup found to restore") and the
data is not carried over, contradicting the claimed record preservation. -/
theorem c1_data_lost :
    (legacyCluster 3).legacyRecords = 3 ∧
    (migrate envAllOk (legacyCluster 3)).exitCode = 0 ∧
    (migrate envAllOk (legacyCluster 3)).state.statefulSetExists = true ∧
    (migrate envAllOk (legacyCluster 3)).state.newRecords = 0 ∧
    Act.restore ∉ (migrate envAllOk (legacyCluster 3)).trace ∧
    Msg.warnNoBackupFound ∈ (migrate envAllOk (legacyCluster 3)).output := by
  decide

/-- C2 counterexample: when no legacy deployment exists but an orphaned PVC
does, the run deletes the PVC without any preceding backup attempt, so the
claimed "no execution path deletes the binding without a preceding backup
attempt" is false as stated. -/
theorem c2_counterexample :
    orphanCluster.pvcExists = true ∧
    Act.deletePvc ∈ (migrate envAllOk orphanCluster).trace ∧
    (migrate envAllOk orphanCluster).state.pvcExists = false ∧
    Act.dump ∉ (migrate envAllOk orphanCluster).trace := by
  decide

/-- C2 amended: whenever the legacy deployment exists, any deletion of the
legacy storage binding is preceded in the trace by the mongodump attempt. -/
theorem c2_backup_precedes_storage_deletion (env : Env) (s : Cluster)
    (hde : s.deploymentExists = true)
    (hdel : Act.deletePvc ∈ (migrate env s).trace) :
    Act.dump ∈ (migrate env s).trace.takeWhile (fun a => a != Act.deletePvc) := by
  cases hka : env.kubectlAvailable
  · rw [run_noKubectl env s hka] at hdel; simp at hdel
  · cases hcr : env.clusterReachable
    · rw [run_noCluster env s hka hcr] at hdel; simp at hdel
    · cases hss : s.statefulSetExists
      · cases hsc : env.scaleOk
        · obtain ⟨_, htr, _⟩ := run_scaleFail env s hka hcr hde hss hsc
          rw [htr] at hdel; simp at hdel
        · cases hap : env.applyOk
          · rw [run_applyFailLegacy env s hka hcr hde hss hsc hap]
            dsimp only; decide
          · cases hrd : env.readyOk
            · rw [run_readyFailLegacy env s hka hcr hde hss hsc hap hrd]
              dsimp only; decide
            · cases hdd : env.deleteDeploymentOk
              · rw [run_deleteFail env s hka hcr hde hss hsc hap hrd hdd]
                dsimp only; decide
              · cases hsv : s.mongodbServiceExists
                · rw [run_svcFailLegacy env s hka hcr hde hss hsc hap hrd hdd hsv]
                  dsimp only; decide
                · rw [run_legacySuccess env s hka hcr hde hss hsc hap hrd hdd hsv]
                  dsimp only; decide
      · rw [run_alreadyMigrated env s hka hcr hss] at hdel
        simp at hdel

/-- C2 witness: concrete legacy run in which the storage deletion happens and
is indeed preceded by the dump. -/
theorem c2_witness :
    (legacyCluster 3).deploymentExists = true ∧
    Act.deletePvc ∈ (migrate envAllOk (legacyCluster 3)).trace ∧
    Act.dump ∈
      (migrate envAllOk (legacyCluster 3)).trace.takeWhile (fun a => a != Act.deletePvc) :=
  ⟨rfl, by decide,
   c2_backup_precedes_storage_deletion envAllOk (legacyCluster 3) rfl (by decide)⟩

/-- C3 counterexample: when the dump fails on a legacy instance with 3
records, the run does not abort: it exits 0 and scale-down, storage deletion
and legacy deletion all still happen, so the claimed non-zero exit with the
legacy instance left untouched is false as stated. -/
theorem c3_counterexample :
    (legacyCluster 3).legacyRecords = 3 ∧
    envDumpFail.dumpOk = false ∧
    (migrate envDumpFail (legacyCluster 3)).exitCode = 0 ∧
    Msg.warnCouldNotBackup ∈ (migrate envDumpFail (legacyCluster 3)).output ∧
    (migrate envDumpFail (legacyCluster 3)).state.pvcExists = false ∧
    (migrate envDumpFail (legacyCluster 3)).state.pvExists = false ∧
    (migrate envDumpFail (legacyCluster 3)).state.deploymentReplicas = 0 ∧
    (migrate envDumpFail (legacyCluster 3)).state.deploymentExists = false := by
  decide

/-- C3 amended: a backup failure of any kind is downgraded to a warning and
the migration proceeds: the legacy instance is scaled down and deleted, its
storage binding is deleted, and the run can still exit 0. -/
theorem c3_dump_failure_nonfatal (env : Env) (s : Cluster)
    (hka : env.kubectlAvailable = true) (hcr : env.clusterReachable = true)
    (hde : s.deploymentExists = true) (hss : s.statefulSetExists = false)
    (hdu : env.dumpOk = false) (hsc : env.scaleOk = true)
    (hap : env.applyOk = true) (hrd : env.readyOk = true)
    (hdd : env.deleteDeploymentOk = true)
    (hsv : s.mongodbServiceExists = true) :
    (migrate env s).exitCode = 0 ∧
    Msg.warnCouldNotBackup ∈ (migrate env s).output ∧
    (migrate env s).state.pvcExists = false ∧
    (migrate env s).state.pvExists = false ∧
    (migrate env s).state.deploymentReplicas = 0 ∧
    (migrate env s).state.deploymentExists = false := by
  rw [run_legacySuccess env s hka hcr hde hss hsc hap hrd hdd hsv]
  refine ⟨rfl, ?_, rfl, rfl, rfl, rfl⟩
  simp [hdu]

/-- C3 witness: the amended behaviour at the concrete dump-failure input. -/
theorem c3_witness :
    envDumpFail.dumpOk = false ∧
    ((migrate envDumpFail (legacyCluster 3)).exitCode = 0 ∧
     Msg.warnCouldNotBackup ∈ (migrate envDumpFail (legacyCluster 3)).output ∧
     (migrate envDumpFail (legacyCluster 3)).state.pvcExists = false ∧
     (migrate envDumpFail (legacyCluster 3)).state.pvExists = false ∧
     (migrate envDumpFail (legacyCluster 3)).state.deploymentReplicas = 0 ∧
     (migrate envDumpFail (legacyCluster 3)).state.deploymentExists = false) :=
  ⟨rfl, c3_dump_failure_nonfatal envDumpFail (legacyCluster 3)
    rfl rfl rfl rfl rfl rfl rfl rfl rfl rfl⟩

/-- C4 counterexample: with the ping failing, the legacy deployment deletion
(Cleaning) still executes, and it appears in the trace strictly before the
ping (Verifying), so Cleaning neither waits for nor depends on a successful
verification; the claim is false as stated. -/
theorem c4_counterexample :
    Act.deleteDeployment ∈
      (migrate envPingFail (legacyCluster 3)).trace.takeWhile (fun a => a != Act.ping) ∧
    Msg.warnPingFailed ∈ (migrate envPingFail (legacyCluster 3)).output ∧
    (migrate envPingFail (legacyCluster 3)).exitCode = 0 ∧
    (migrate envPingFail (legacyCluster 3)).state.deploymentExists = false := by
  decide

/-- C4 amended: in every legacy-topology run in which the ping executes at
all, the legacy deployment deletion has already executed before it; the
deletion is gated only on provisioning, not on verification. -/
theorem c4_cleaning_precedes_verification (env : Env) (s : Cluster)
    (hde : s.deploymentExists = true)
    (hp : Act.ping ∈ (migrate env s).trace) :
    Act.deleteDeployment ∈ (migrate env s).trace.takeWhile (fun a => a != Act.ping) := by
  cases hka : env.kubectlAvailable
  · rw [run_noKubectl env s hka] at hp; simp at hp
  · cases hcr : env.clusterReachable
    · rw [run_noCluster env s hka hcr] at hp; simp at hp
    · cases hss : s.statefulSetExists
      · cases hsc : env.scaleOk
        · obtain ⟨_, htr, _⟩ := run_scaleFail env s hka hcr hde hss hsc
          rw [htr] at hp; simp at hp
        · cases hap : env.applyOk
          · rw [run_applyFailLegacy env s hka hcr hde hss hsc hap] at hp
            simp at hp
          · cases hrd : env.readyOk
            · rw [run_readyFailLegacy env s hka hcr hde hss hsc hap hrd] at hp
              simp at hp
            · cases hdd : env.deleteDeploymentOk
              · rw [run_deleteFail env s hka hcr hde hss hsc hap hrd hdd] at hp
                simp at hp
              · cases hsv : s.mongodbServiceExists
                · rw [run_svcFailLegacy env s hka hcr hde hss hsc hap hrd hdd hsv] at hp
                  simp at hp
                · rw [run_legacySuccess env s hka hcr hde hss hsc hap hrd hdd hsv]
                  dsimp only; decide
      · rw [run_alreadyMigrated env s hka hcr hss] at hp
        simp at hp

/-- C4 witness: concrete legacy run in which the ping executes and the
deletion indeed precedes it. -/
theorem c4_witness :
    (legacyCluster 3).deploymentExists = true ∧
    Act.ping ∈ (migrate envAllOk (legacyCluster 3)).trace ∧
    Act.deleteDeployment ∈
      (migrate envAllOk (legacyCluster 3)).trace.takeWhile (fun a => a != Act.ping) :=
  ⟨rfl, by decide,
   c4_cleaning_precedes_verification envAllOk (legacyCluster 3) rfl (by decide)⟩

/-- C5: if a first invocation exits 0, a second invocation (with kubectl
available and the cluster reachable) on the resulting cluster state performs
no mutating call, reports that the StatefulSet already exists, and exits 0. -/
theorem c5_second_run_readonly (e1 e2 : Env) (s : Cluster)
    (h0 : (migrate e1 s).exitCode = 0)
    (hka : e2.kubectlAvailable = true) (hcr : e2.clusterReachable = true) :
    (migrate e2 (migrate e1 s).state).exitCode = 0 ∧
    (∀ a ∈ (migrate e2 (migrate e1 s).state).trace, mutating a = false) ∧
    Msg.successAlreadyExists ∈ (migrate e2 (migrate e1 s).state).output := by
  have hss := migrate_exit0_statefulSet e1 s h0
  rw [run_alreadyMigrated e2 _ hka hcr hss]
  exact ⟨rfl, by dsimp only; decide, by simp⟩

/-- C5 witness: concrete pair of consecutive invocations. -/
theorem c5_witness :
    (migrate envAllOk (legacyCluster 3)).exitCode = 0 ∧
    envAllOk.kubectlAvailable = true ∧ envAllOk.clusterReachable = true ∧
    ((migrate envAllOk (migrate envAllOk (legacyCluster 3)).state).exitCode = 0 ∧
     (∀ a ∈ (migrate envAllOk (migrate envAllOk (legacyCluster 3)).state).trace,
        mutating a = false) ∧
     Msg.successAlreadyExists ∈
       (migrate envAllOk (migrate envAllOk (legacyCluster 3)).state).output) :=
  ⟨by decide, rfl, rfl,
   c5_second_run_readonly envAllOk envAllOk (legacyCluster 3) (by decide) rfl rfl⟩

/-- C6 counterexample: when the readiness wait fails, the run exits 1 with
the legacy deployment scaled to zero and not deleted — but the complete
output is listed here and contains no failure classification and no
manual-recovery guidance (the script aborts silently under `set -e`), so the
claimed `PostCutoverDegradation` report is false as stated. -/
theorem c6_counterexample :
    (migrate envReadyFail (legacyCluster 3)).exitCode = 1 ∧
    (migrate envReadyFail (legacyCluster 3)).state.deploymentReplicas = 0 ∧
    (migrate envReadyFail (legacyCluster 3)).state.deploymentExists = true ∧
    (migrate envReadyFail (legacyCluster 3)).output =
      [.header, .infoChecking, .warnFoundDeployment, .infoBackingUp,
       .infoScalingDown, .infoCleanupStorage, .infoDeploying, .infoWaitingReady] := by
  decide

/-- C6 amended: on readiness failure the run exits nonzero with the legacy
instance scaled to zero and not deleted, and the last printed message is the
readiness announcement — no failure report or recovery guidance follows. -/
theorem c6_ready_timeout_silent (env : Env) (s : Cluster)
    (hka : env.kubectlAvailable = true) (hcr : env.clusterReachable = true)
    (hde : s.deploymentExists = true) (hss : s.statefulSetExists = false)
    (hsc : env.scaleOk = true) (hap : env.applyOk = true)
    (hrd : env.readyOk = false) :
    (migrate env s).exitCode ≠ 0 ∧
    (migrate env s).state.deploymentReplicas = 0 ∧
    (migrate env s).state.deploymentExists = true ∧
    (migrate env s).output.getLast? = some Msg.infoWaitingReady := by
  rw [run_readyFailLegacy env s hka hcr hde hss hsc hap hrd]
  refine ⟨by dsimp only; decide, rfl, rfl, ?_⟩
  cases hdu : env.dumpOk <;> cases hpvc : s.pvcExists <;> cases hpv : s.pvExists <;>
    simp [hdu, hpvc, hpv, List.getLast?]

/-- C6 witness: the amended behaviour at the concrete readiness-failure
input. -/
theorem c6_witness :
    envReadyFail.readyOk = false ∧
    ((migrate envReadyFail (legacyCluster 3)).exitCode ≠ 0 ∧
     (migrate envReadyFail (legacyCluster 3)).state.deploymentReplicas = 0 ∧
     (migrate envReadyFail (legacyCluster 3)).state.deploymentExists = true ∧
     (migrate envReadyFail (legacyCluster 3)).output.getLast? =
       some Msg.infoWaitingReady) :=
  ⟨rfl, c6_ready_timeout_silent envReadyFail (legacyCluster 3)
    rfl rfl rfl rfl rfl rfl rfl⟩

/-- C7 counterexample: on a genuinely absent cluster (no deployment, no
StatefulSet, no services) with every external command succeeding, the run
does provision the StatefulSet with no dump and no restore — but it exits 1,
not 0: the migration script never creates the mongodb services (they live in
separate manifests applied by `deploy.sh`), so the bare
`kubectl get svc | grep mongodb` pipeline at line 124 fails under `set -e`;
the claimed universal exit 0 is false as stated. -/
theorem c7_counterexample :
    absentCluster.deploymentExists = false ∧
    absentCluster.statefulSetExists = false ∧
    absentCluster.mongodbServiceExists = false ∧
    (migrate envAllOk absentCluster).exitCode = 1 ∧
    Act.dump ∉ (migrate envAllOk absentCluster).trace ∧
    Act.restore ∉ (migrate envAllOk absentCluster).trace ∧
    Act.applyStatefulSet ∈ (migrate envAllOk absentCluster).trace ∧
    (migrate envAllOk absentCluster).state.statefulSetExists = true ∧
    (migrate envAllOk absentCluster).trace.getLast? = some Act.grepSvc := by
  decide

/-- C7 amended: from the Absent topology the run provisions the StatefulSet
directly, never attempts a dump or a restore, and — provided a mongodb-named
service already exists in the namespace (the script itself never creates
one) and the apply and readiness wait succeed — exits 0. -/
theorem c7_absent_direct_provision (env : Env) (s : Cluster)
    (hka : env.kubectlAvailable = true) (hcr : env.clusterReachable = true)
    (hde : s.deploymentExists = false) (hss : s.statefulSetExists = false)
    (hap : env.applyOk = true) (hrd : env.readyOk = true)
    (hsv : s.mongodbServiceExists = true) :
    (migrate env s).exitCode = 0 ∧
    Act.dump ∉ (migrate env s).trace ∧
    Act.restore ∉ (migrate env s).trace ∧
    Act.applyStatefulSet ∈ (migrate env s).trace ∧
    (migrate env s).state.statefulSetExists = true := by
  rw [run_absentSuccess env s hka hcr hde hss hap hrd hsv]
  exact ⟨rfl, by dsimp only; decide, by dsimp only; decide,
    by dsimp only; decide, by simp⟩

/-- C7 witness: the concrete absent-topology run with the services already
present. -/
theorem c7_witness :
    absentWithServiceCluster.deploymentExists = false ∧
    absentWithServiceCluster.statefulSetExists = false ∧
    absentWithServiceCluster.mongodbServiceExists = true ∧
    ((migrate envAllOk absentWithServiceCluster).exitCode = 0 ∧
     Act.dump ∉ (migrate envAllOk absentWithServiceCluster).trace ∧
     Act.restore ∉ (migrate envAllOk absentWithServiceCluster).trace ∧
     Act.applyStatefulSet ∈ (migrate envAllOk absentWithServiceCluster).trace ∧
     (migrate envAllOk absentWithServiceCluster).state.statefulSetExists = true) :=
  ⟨rfl, rfl, rfl,
   c7_absent_direct_provision envAllOk absentWithServiceCluster
     rfl rfl rfl rfl rfl rfl rfl⟩

/-- C8: the restore step (lines 101-112) never aborts the run: when a backup
is found in `mongodb-0` and mongorestore fails, the failure is downgraded to
a warning and the phase still returns `Except.ok`, so the migration continues
with the remaining phases. -/
theorem c8_restore_failure_nonfatal (env : Env) (r : Run) (b : Nat)
    (hb : r.cluster.newPodBackup = some b) (hro : env.restoreOk = false) :
    ∃ r2, restorePhase env true r = Except.ok r2 ∧
      Msg.warnCouldNotRestore ∈ r2.output := by
  cases hrk : env.rmOk <;>
    simp [restorePhase, hb, hro, hrk, Run.act, Run.say, Run.upd]

/-- C8 witness: concrete restore-phase state holding a 3-record backup with a
failing mongorestore. -/
theorem c8_witness :
    runWithBackup.cluster.newPodBackup = some 3 ∧ envRestoreFail.restoreOk = false ∧
    (∃ r2, restorePhase envRestoreFail true runWithBackup = Except.ok r2 ∧
      Msg.warnCouldNotRestore ∈ r2.output) :=
  ⟨rfl, rfl, c8_restore_failure_nonfatal envRestoreFail runWithBackup 3 rfl rfl⟩

/-- C9 counterexample: with the ping failing, the run still exits 0 and
prints the success banner, and the trace contains exactly one ping — no
retries, no backoff, no transition to a failed state; the claim is false as
stated. -/
theorem c9_counterexample :
    (migrate envPingFail (legacyCluster 3)).trace.count Act.ping = 1 ∧
    Msg.warnPingFailed ∈ (migrate envPingFail (legacyCluster 3)).output ∧
    (migrate envPingFail (legacyCluster 3)).exitCode = 0 ∧
    Msg.successMigrationComplete ∈ (migrate envPingFail (legacyCluster 3)).output := by
  decide

/-- C9 amended: the verification ping is attempted exactly once; its failure
is downgraded to a warning and the run completes with exit code 0 and the
success banner. -/
theorem c9_ping_once_nonfatal (env : Env) (s : Cluster)
    (hka : env.kubectlAvailable = true) (hcr : env.clusterReachable = true)
    (hss : s.statefulSetExists = false)
    (hsc : s.deploymentExists = true → env.scaleOk = true)
    (hdd : s.deploymentExists = true → env.deleteDeploymentOk = true)
    (hap : env.applyOk = true) (hrd : env.readyOk = true)
    (hsv : s.mongodbServiceExists = true)
    (hpg : env.pingOk = false) :
    (migrate env s).trace.count Act.ping = 1 ∧
    Msg.warnPingFailed ∈ (migrate env s).output ∧
    (migrate env s).exitCode = 0 ∧
    Msg.successMigrationComplete ∈ (migrate env s).output := by
  cases hde : s.deploymentExists
  · rw [run_absentSuccess env s hka hcr hde hss hap hrd hsv]
    refine ⟨by dsimp only; decide, ?_, rfl, ?_⟩ <;> simp [hpg]
  · rw [run_legacySuccess env s hka hcr hde hss (hsc hde) hap hrd (hdd hde) hsv]
    refine ⟨by dsimp only; decide, ?_, rfl, ?_⟩ <;> simp [hpg]

/-- C9 witness: the amended behaviour at the concrete ping-failure input. -/
theorem c9_witness :
    envPingFail.pingOk = false ∧
    ((migrate envPingFail (legacyCluster 3)).trace.count Act.ping = 1 ∧
     Msg.warnPingFailed ∈ (migrate envPingFail (legacyCluster 3)).output ∧
     (migrate envPingFail (legacyCluster 3)).exitCode = 0 ∧
     Msg.successMigrationComplete ∈ (migrate envPingFail (legacyCluster 3)).output) :=
  ⟨rfl, c9_ping_once_nonfatal envPingFail (legacyCluster 3)
    rfl rfl rfl (fun _ => rfl) (fun _ => rfl) rfl rfl rfl rfl⟩

/-- C10 counterexample: the scale-down, apply and readiness wait all succeed,
yet the run exits 1 because deleting the legacy deployment fails — so the
claimed "exit 0 iff scale-down, apply and readiness succeed" is false as
stated. -/
theorem c10_counterexample :
    envDeleteDepFail.scaleOk = true ∧ envDeleteDepFail.applyOk = true ∧
    envDeleteDepFail.readyOk = true ∧
    (migrate envDeleteDepFail (legacyCluster 3)).exitCode = 1 := by
  decide

/-- C10 amended: given the preflight checks pass and no StatefulSet
pre-exists, the run exits 0 exactly when the apply and the readiness wait
succeed, a mongodb-named service already exists in the namespace (the
`kubectl get svc | grep mongodb` pipeline at line 124 aborts the run under
`set -e` otherwise, and the script never creates the services) and, when a
legacy deployment exists, the scale-down and the legacy deployment deletion
also succeed; the outcomes of the backup, the restore, the backup cleanup
and the ping have no effect on the exit code. -/
theorem c10_exit_characterization (env : Env) (s : Cluster)
    (hka : env.kubectlAvailable = true) (hcr : env.clusterReachable = true)
    (hss : s.statefulSetExists = false) :
    ((migrate env s).exitCode = 0 ↔
      ((s.deploymentExists = true →
          env.scaleOk = true ∧ env.deleteDeploymentOk = true) ∧
       env.applyOk = true ∧ env.readyOk = true ∧
       s.mongodbServiceExists = true)) := by
  cases hde : s.deploymentExists
  · cases hap : env.applyOk
    · rw [run_applyFailAbsent env s hka hcr hde hss hap]; simp [hde, hap]
    · cases hrd : env.readyOk
      · rw [run_readyFailAbsent env s hka hcr hde hss hap hrd]; simp [hde, hap, hrd]
      · cases hsv : s.mongodbServiceExists
        · rw [run_svcFailAbsent env s hka hcr hde hss hap hrd hsv]
          simp [hde, hap, hrd, hsv]
        · rw [run_absentSuccess env s hka hcr hde hss hap hrd hsv]
          simp [hde, hap, hrd, hsv]
  · cases hsc : env.scaleOk
    · obtain ⟨h1, _⟩ := run_scaleFail env s hka hcr hde hss hsc
      rw [h1]; simp [hde, hsc]
    · cases hap : env.applyOk
      · rw [run_applyFailLegacy env s hka hcr hde hss hsc hap]; simp [hde, hsc, hap]
      · cases hrd : env.readyOk
        · rw [run_readyFailLegacy env s hka hcr hde hss hsc hap hrd]
          simp [hde, hsc, hap, hrd]
        · cases hdd : env.deleteDeploymentOk
          · rw [run_deleteFail env s hka hcr hde hss hsc hap hrd hdd]
            simp [hde, hsc, hap, hrd, hdd]
          · cases hsv : s.mongodbServiceExists
            · rw [run_svcFailLegacy env s hka hcr hde hss hsc hap hrd hdd hsv]
              simp [hde, hsc, hap, hrd, hdd, hsv]
            · rw [run_legacySuccess env s hka hcr hde hss hsc hap hrd hdd hsv]
              simp [hde, hsc, hap, hrd, hdd, hsv]

/-- C10 witness: the characterization evaluated at the all-success legacy
input. -/
theorem c10_witness :
    envAllOk.kubectlAvailable = true ∧ envAllOk.clusterReachable = true ∧
    (legacyCluster 3).statefulSetExists = false ∧
    ((migrate envAllOk (legacyCluster 3)).exitCode = 0 ↔
      (((legacyCluster 3).deploymentExists = true →
          envAllOk.scaleOk = true ∧ envAllOk.deleteDeploymentOk = true) ∧
       envAllOk.applyOk = true ∧ envAllOk.readyOk = true ∧
       (legacyCluster 3).mongodbServiceExists = true)) :=
  ⟨rfl, rfl, rfl, c10_exit_characterization envAllOk (legacyCluster 3) rfl rfl rfl⟩

end MongoMigrate
